import Mathlib

/-!
Verification development for the tql semantic analyzer
(`src/tql_macros/src/analyzer.rs` and `src/tql_macros/src/analyzer/limit.rs`).

The Rust code is shallowly embedded: every analyzer function becomes a Lean
function of the same name (snake case kept), mutation of the shared
`Vec<Error>` becomes explicit list passing (a Rust `errors.push(e)` becomes
`errors ++ [e]`), and `Result<T, Vec<Error>>` becomes the `SqlResult` sum
type below.  The analyzer's collaborators that are not part of the sources
(the schema registry of `state.rs`, the diagnostics of `error.rs`, the type
compatibility relation and `Display` of `types.rs`, `find_near` of
`string.rs`, `number_literal` of `plugin.rs` and the dialect `ToSql`
mapping of `gen.rs`) are modelled from the specification; each such
definition is marked `Modelled from the spec:` in its doc comment.
-/

namespace Tql

/-- SQL column type, translated from the spec's data model (`types.rs` is not
among the sources): variants over bool, the signed/unsigned integer widths,
the two float widths, char, String, byte string, `Custom` (a foreign key
naming the referenced table) and `UnsupportedType`. -/
inductive Typ where
  | bool
  | i8
  | i16
  | i32
  | i64
  | isize
  | u8
  | u16
  | u32
  | u64
  | usize
  | f32
  | f64
  | char
  | string
  | byteString
  | custom (table : String)
  | unsupported (name : String)
  deriving DecidableEq, Repr

/-- Embeds `syntax::codemap::Spanned`: a node together with its source position.
Positions are modelled as natural numbers. -/
structure Spanned (α : Type) where
  node : α
  span : Nat
  deriving DecidableEq, Repr

/-- The suffix of a Rust integer literal (`syntax::ast::LitIntType`). -/
inductive IntLitTy where
  | i8
  | i16
  | i32
  | i64
  | isize
  | u8
  | u16
  | u32
  | u64
  | usize
  | unsuffixed
  deriving DecidableEq, Repr

/-- The suffix of a Rust float literal (`syntax::ast::FloatTy`). -/
inductive FloatTy where
  | f32
  | f64
  deriving DecidableEq, Repr

/-- A Rust literal (`syntax::ast::Lit_`), keeping exactly the payloads the
analyzer inspects. -/
inductive Lit where
  | bool (b : Bool)
  | byte (value : Nat)
  | byteStr (value : List Nat)
  | char (c : Char)
  | float (repr : String) (ty : FloatTy)
  | floatUnsuffixed (repr : String)
  | int (value : Nat) (ty : IntLitTy)
  | str (s : String)
  deriving DecidableEq, Repr

/-- Unary operators the analyzer distinguishes (`syntax::ast::UnOp`). -/
inductive UnOp where
  | neg
  | not
  deriving DecidableEq, Repr

/-- Binary operators (`syntax::ast::BinOp_`). -/
inductive BinOp where
  | add
  | sub
  | mul
  | div
  | rem
  | and
  | or
  | bitXor
  | bitAnd
  | bitOr
  | shl
  | shr
  | eq
  | lt
  | le
  | ne
  | ge
  | gt
  deriving DecidableEq, Repr

/-- Rust expression trees as the analyzer sees them (`syntax::ast::Expr`).
Every node carries its span; for a path the node span doubles as the
`Path`'s own span (they coincide in the source ASTs).  A method call
carries the method identifier's span and name (`SpannedIdent`) and its
receiver — in the Rust AST the receiver is `exprs[0]` of
`ExprMethodCall`'s argument list; the remaining arguments are never read
by the analyzer (it always builds `arguments: vec![]`) and are omitted
here, as are the arguments of `ExprCall`.  `ExprRange`'s two `Option`
endpoints are flattened into four constructors.  Expression shapes the
analyzer never distinguishes are collapsed into `other`. -/
inductive Expr where
  | lit (span : Nat) (value : Lit)
  | path (span : Nat) (qself : Bool) (segments : List String)
  | assign (span : Nat) (lhs rhs : Expr)
  | binary (span : Nat) (op : BinOp) (e1 e2 : Expr)
  | unary (span : Nat) (op : UnOp) (e : Expr)
  | methodCall (span : Nat) (identSpan : Nat) (ident : String) (receiver : Expr)
  | paren (span : Nat) (e : Expr)
  | rangeFull (span : Nat) (start stop : Expr)
  | rangeFrom (span : Nat) (start : Expr)
  | rangeTo (span : Nat) (stop : Expr)
  | rangeOpen (span : Nat)
  | call (span : Nat) (f : Expr)
  | cast (span : Nat) (e : Expr)
  | other (span : Nat)
  deriving DecidableEq, Repr

/-- In the source `Expression` abbreviates a pointer to an expression. -/
abbrev Expression := Expr

/-- The span of an expression node. -/
def Expr.span : Expr → Nat
  | .lit s _ => s
  | .path s _ _ => s
  | .assign s _ _ => s
  | .binary s _ _ _ => s
  | .unary s _ _ => s
  | .methodCall s _ _ _ => s
  | .paren s _ => s
  | .rangeFull s _ _ => s
  | .rangeFrom s _ => s
  | .rangeTo s _ => s
  | .rangeOpen s => s
  | .call s _ => s
  | .cast s _ => s
  | .other s => s

/-- Modelled from the spec: `state.rs` (not among the sources) holds the
schema registry.  A table is an ordered field list (name with its typed,
positioned declaration) plus the optional primary-key field name — §6:
`{table → ordered {field → (Type, position)}, primary_key?: field}`, with
at most one primary key per table. -/
structure SqlFields where
  fields : List (String × Spanned Typ)
  primaryKey : Option String
  deriving DecidableEq, Repr

/-- Modelled from the spec: `state.rs`'s `get_primary_key_field` returns
the table's single primary-key field, if any. -/
def get_primary_key_field (table : SqlFields) : Option String :=
  table.primaryKey

/-- Association lookup of a field by name (`SqlFields::get`). -/
def lookup_field (table : SqlFields) (name : String) : Option (Spanned Typ) :=
  match table.fields.find? (fun ft => ft.1 == name) with
  | some ft => some ft.2
  | none => none

/-- Embeds `SqlFields::contains_key`. -/
def contains_field (table : SqlFields) (name : String) : Bool :=
  (lookup_field table name).isSome

/-- Embeds `SqlFields::keys`, in declaration order (the spec's registry is ordered). -/
def field_names (table : SqlFields) : List String :=
  table.fields.map Prod.fst

/-- The registry of all tables (`SqlTables`), ordered. -/
abbrev SqlTables := List (String × SqlFields)

/-- Embeds `SqlTables::get`. -/
def lookup_table (tables : SqlTables) (name : String) : Option SqlFields :=
  match tables.find? (fun t => t.1 == name) with
  | some t => some t.2
  | none => none

/-- Embeds `SqlTables::contains_key`. -/
def contains_table (tables : SqlTables) (name : String) : Bool :=
  (lookup_table tables name).isSome

/-- Modelled from the spec: the per-type method-template registry
(`state.rs`'s `methods_singleton`), mapping a type and a method name to an
SQL template string. -/
abbrev MethodsRegistry := List (Typ × List (String × String))

/-- Lookup of a type's method table in the registry. -/
def lookup_type_methods (methods : MethodsRegistry) (typ : Typ) : Option (List (String × String)) :=
  match methods.find? (fun tm => tm.1 == typ) with
  | some tm => some tm.2
  | none => none

/-- Lookup of a method's template in a type's method table. -/
def lookup_template (typeMethods : List (String × String)) (name : String) : Option String :=
  match typeMethods.find? (fun mt => mt.1 == name) with
  | some mt => some mt.2
  | none => none

/-- Modelled from the spec: the severity of a diagnostic (`error.rs` is not
among the sources) — a primary error or a secondary help/note annotation. -/
inductive ErrorKind where
  | error
  | help
  | note
  deriving DecidableEq, Repr

/-- Modelled from the spec: a diagnostic record of `error.rs` — message,
position, optional machine code, and whether it is a primary error or a
help/note annotation. -/
structure Error where
  message : String
  position : Nat
  kind : ErrorKind
  code : Option String
  deriving DecidableEq, Repr

/-- Embeds `Error::new`. -/
def Error.new (message : String) (position : Nat) : Error :=
  ⟨message, position, ErrorKind.error, none⟩

/-- Embeds `Error::new_with_code`. -/
def Error.new_with_code (message : String) (position : Nat) (code : String) : Error :=
  ⟨message, position, ErrorKind.error, some code⟩

/-- Embeds `Error::new_help`. -/
def Error.new_help (message : String) (position : Nat) : Error :=
  ⟨message, position, ErrorKind.help, none⟩

/-- Embeds `Error::new_note`. -/
def Error.new_note (message : String) (position : Nat) : Error :=
  ⟨message, position, ErrorKind.note, none⟩

/-- Embeds `SqlResult<T> = Result<T, Vec<Error>>`. -/
inductive SqlResult (α : Type) where
  | ok (value : α)
  | err (errors : List Error)
  deriving DecidableEq, Repr

/-- Functorial map on the success value (Rust `Result::map` / `and_then`
into `Ok`). -/
def SqlResult.map (f : α → β) : SqlResult α → SqlResult β
  | .ok v => .ok (f v)
  | .err e => .err e

/-- Whether the result is a success. -/
def SqlResult.isOk : SqlResult α → Bool
  | .ok _ => true
  | .err _ => false

/-- The error list of a result (`[]` on success). -/
def SqlResult.toErrors : SqlResult α → List Error
  | .ok _ => []
  | .err e => e

/-- Modelled from the spec: `error.rs`'s `res(value, errors)` — success iff
the diagnostics gathered so far are empty, otherwise all of them are
returned as the failure. -/
def res (value : α) (errors : List Error) : SqlResult α :=
  if errors.isEmpty then .ok value else .err errors

/-- One method call of the chain (`parser::MethodCall`). -/
structure MethodCall where
  name : String
  arguments : List Expr
  position : Nat
  deriving DecidableEq, Repr

/-- The whole chain (`parser::MethodCalls`): table name, calls, position. -/
structure MethodCalls where
  name : String
  calls : List MethodCall
  position : Nat
  deriving DecidableEq, Repr

/-- Embeds `ast::Identifier`. -/
abbrev Identifier := String

/-- Embeds `ast::Assignment`: one `field = value` pair. -/
structure Assignment where
  identifier : Identifier
  value : Expression
  deriving DecidableEq, Repr

/-- Embeds `ast::MethodCall`: a resolved comparison-method reference inside a
filter, carrying the matched SQL template. -/
structure AstMethodCall where
  arguments : List Expression
  identifier : Identifier
  name : Identifier
  template : String
  deriving DecidableEq, Repr

/-- Embeds `ast::RValue`: the left operand of a filter leaf. -/
inductive RValue where
  | identifier (id : Identifier)
  | methodCall (call : AstMethodCall)
  deriving DecidableEq, Repr

/-- Embeds `ast::LogicalOperator`. -/
inductive LogicalOperator where
  | and
  | or
  deriving DecidableEq, Repr

/-- Embeds `ast::RelationalOperator`. -/
inductive RelationalOperator where
  | equal
  | lesserThan
  | lesserThanEqual
  | notEqual
  | greaterThan
  | greaterThanEqual
  deriving DecidableEq, Repr

/-- Embeds `ast::Filter`: one comparison leaf. -/
structure Filter where
  operand1 : RValue
  operator : RelationalOperator
  operand2 : Expression
  deriving DecidableEq, Repr

/-- Embeds `ast::FilterExpression` (the recursive filter tree; the source's
`Filters` struct is inlined into the `filters` constructor). -/
inductive FilterExpression where
  | noFilters
  | filter (f : Filter)
  | filters (operand1 : FilterExpression) (operator : LogicalOperator) (operand2 : FilterExpression)
  | negFilter (inner : FilterExpression)
  | parenFilter (inner : FilterExpression)
  deriving DecidableEq, Repr

/-- Embeds `ast::Limit`. -/
inductive Limit where
  | endRange (expression : Expression)
  | index (expression : Expression)
  | limitOffset (limit offset : Expression)
  | noLimit
  | range (start stop : Expression)
  | startRange (expression : Expression)
  deriving DecidableEq, Repr

/-- Embeds `ast::Order`. -/
inductive Order where
  | ascending (field : Identifier)
  | descending (field : Identifier)
  deriving DecidableEq, Repr

/-- Embeds `ast::TypedField`: a field name with its dialect SQL type string. -/
structure TypedField where
  identifier : Identifier
  typ : String
  deriving DecidableEq, Repr

/-- Embeds `ast::Join`. -/
structure Join where
  left_field : Identifier
  left_table : Identifier
  right_field : Identifier
  right_table : Identifier
  deriving DecidableEq, Repr

/-- Embeds `analyzer::SqlQueryType`. -/
inductive SqlQueryType where
  | createTable
  | delete
  | drop
  | insert
  | select
  | update
  deriving DecidableEq, Repr

/-- Embeds `ast::Query`: the query IR, one case per statement kind. -/
inductive Query where
  | createTable (fields : List TypedField) (table : String)
  | delete (filter : FilterExpression) (table : String)
  | drop (table : String)
  | insert (assignments : List Assignment) (table : String)
  | select (fields : List Identifier) (filter : FilterExpression) (joins : List Join)
      (limit : Limit) (order : List Order) (table : String)
  | update (assignments : List Assignment) (filter : FilterExpression) (table : String)
  deriving DecidableEq, Repr

/-- Modelled from the spec: `plugin.rs`'s `number_literal(n)` builds an
unsuffixed integer literal expression (with a dummy span). -/
def number_literal (n : Nat) : Expression :=
  Expr.lit 0 (Lit.int n IntLitTy.unsuffixed)

/-- Modelled from the spec: edit distance between two strings, for the
nearest-name suggestions of `string.rs` (not among the sources).  A
structurally recursive Wagner-Fischer row computation so that it evaluates
by kernel reduction. -/
def edit_distance_row (prev : List Nat) (ca : Char) (bs : List Char) : List Nat :=
  let first := prev.headD 0 + 1
  let step := fun (acc : List Nat × Nat × List Nat) (cb : Char) =>
    let row := acc.1
    let left := acc.2.1
    let diagRest := acc.2.2
    let diag := diagRest.headD 0
    let up := (diagRest.drop 1).headD 0
    let cost := if ca = cb then diag else min diag (min left up) + 1
    (row ++ [cost], cost, diagRest.drop 1)
  (bs.foldl step ([first], first, prev)).1

/-- Modelled from the spec: Levenshtein edit distance over characters. -/
def edit_distance (a b : String) : Nat :=
  let init := List.range (b.data.length + 1)
  let final := a.data.foldl (fun row ca => edit_distance_row row ca b.data) init
  final.getLastD 0

/-- Modelled from the spec: `string.rs`'s `find_near` — the candidate at
the smallest edit distance from `name`, accepted only when that distance
is small (below 3). -/
def find_near (name : String) (candidates : List String) : Option String :=
  let best := candidates.foldl
    (fun acc c =>
      let d := edit_distance c name
      match acc with
      | none => if d < 3 then some (c, d) else none
      | some p => if d < p.2 then some (c, d) else some p)
    none
  best.map Prod.fst

/-- Modelled from the spec: the `Display` rendering of a `Typ` used inside
diagnostic messages (`types.rs` is not among the sources). -/
def Typ.display : Typ → String
  | .bool => "bool"
  | .i8 => "i8"
  | .i16 => "i16"
  | .i32 => "i32"
  | .i64 => "i64"
  | .isize => "isize"
  | .u8 => "u8"
  | .u16 => "u16"
  | .u32 => "u32"
  | .u64 => "u64"
  | .usize => "usize"
  | .f32 => "f32"
  | .f64 => "f64"
  | .char => "char"
  | .string => "String"
  | .byteString => "Vec<u8>"
  | .custom table => "ForeignKey<" ++ table ++ ">"
  | .unsupported name => name

/-- Modelled from the spec: the dialect's Type → SQL-type-name mapping of
the SQL generator (`gen.rs`'s `ToSql` for `Typ`, not among the sources);
the concrete strings are one dialect's choice and no claim depends on
them. -/
def Typ.to_sql : Typ → String
  | .bool => "BOOLEAN"
  | .i8 => "SMALLINT"
  | .i16 => "SMALLINT"
  | .i32 => "INTEGER"
  | .i64 => "BIGINT"
  | .isize => "BIGINT"
  | .u8 => "SMALLINT"
  | .u16 => "INTEGER"
  | .u32 => "BIGINT"
  | .u64 => "BIGINT"
  | .usize => "BIGINT"
  | .f32 => "REAL"
  | .f64 => "DOUBLE PRECISION"
  | .char => "CHARACTER(1)"
  | .string => "CHARACTER VARYING"
  | .byteString => "BYTEA"
  | .custom _ => "INTEGER"
  | .unsupported _ => ""

/-- Whether a type is one of the integer types. -/
def Typ.is_integer : Typ → Bool
  | .i8 => true
  | .i16 => true
  | .i32 => true
  | .i64 => true
  | .isize => true
  | .u8 => true
  | .u16 => true
  | .u32 => true
  | .u64 => true
  | .usize => true
  | _ => false

/-- Modelled from the spec: whether a declared type accepts a literal —
§4.4's tag comparison (`PartialEq<Expression> for Type` in `types.rs`, not
among the sources).  An unsuffixed integer literal is accepted by every
integer type and an unsuffixed float literal by both float types. -/
def lit_matches_type (fieldType : Typ) (l : Lit) : Bool :=
  match l with
  | .bool _ => fieldType == Typ.bool
  | .byte _ => fieldType == Typ.u8
  | .byteStr _ => fieldType == Typ.byteString
  | .char _ => fieldType == Typ.char
  | .float _ FloatTy.f32 => fieldType == Typ.f32
  | .float _ FloatTy.f64 => fieldType == Typ.f64
  | .floatUnsuffixed _ => fieldType == Typ.f32 || fieldType == Typ.f64
  | .int _ ty =>
      match ty with
      | .i8 => fieldType == Typ.i8
      | .i16 => fieldType == Typ.i16
      | .i32 => fieldType == Typ.i32
      | .i64 => fieldType == Typ.i64
      | .isize => fieldType == Typ.isize
      | .u8 => fieldType == Typ.u8
      | .u16 => fieldType == Typ.u16
      | .u32 => fieldType == Typ.u32
      | .u64 => fieldType == Typ.u64
      | .usize => fieldType == Typ.usize
      | .unsuffixed => fieldType.is_integer
  | .str _ => fieldType == Typ.string

/-- Modelled from the spec: the `field_type != expression` comparison of
`check_type` — only literal expressions are type-checked, every other
expression is accepted (§4.4: non-literals are deferred). -/
def typ_matches_expression (fieldType : Typ) (expression : Expression) : Bool :=
  match expression with
  | .lit _ l => lit_matches_type fieldType l
  | _ => true

/-- Embeds `get_type` (analyzer.rs:599): the string naming a literal expression's
inferred type inside a mismatch diagnostic. -/
def get_type (expression : Expression) : String :=
  match expression with
  | .lit _ l =>
      match l with
      | .bool _ => "bool"
      | .byte _ => "u8"
      | .byteStr _ => "Vec<u8>"
      | .char _ => "char"
      | .float _ FloatTy.f32 => "f32"
      | .float _ FloatTy.f64 => "f64"
      | .floatUnsuffixed _ => "floating-point variable"
      | .int _ ty =>
          match ty with
          | .isize => "isize"
          | .i8 => "i8"
          | .i16 => "i16"
          | .i32 => "i32"
          | .i64 => "i64"
          | .usize => "usize"
          | .u8 => "u8"
          | .u16 => "u16"
          | .u32 => "u32"
          | .u64 => "u64"
          | .unsuffixed => "integral variable"
      | .str _ => "String"
  | _ => ""

/-- Embeds `check_type` (analyzer.rs:441): on a literal/declared-type mismatch,
push a "mismatched types" error (code E0308) plus the macro-expansion
note. -/
def check_type (field_type : Typ) (expression : Expression) (errors : List Error) : List Error :=
  if typ_matches_expression field_type expression then errors
  else
    errors ++
      [Error.new_with_code
        ("mismatched types:\n expected `" ++ field_type.display ++ "`,\n    found `" ++
          get_type expression ++ "`")
        expression.span "E0308",
       Error.new_note ("in this expansion of sql! (defined in tql)") expression.span]

/-- Embeds `check_field` (analyzer.rs:361): error (plus nearest-name help) when
`identifier` is not a field of the table. -/
def check_field (identifier : String) (position : Nat) (table_name : String)
    (table : SqlFields) (errors : List Error) : List Error :=
  if contains_field table identifier then errors
  else
    errors ++
      [Error.new
        ("attempted access of field `" ++ identifier ++ "` on type `" ++ table_name ++
          "`, but no field with that name was found")
        position] ++
      (match find_near identifier (field_names table) with
       | some name => [Error.new_help ("did you mean " ++ name ++ "?") position]
       | none => [])

/-- Embeds `no_primary_key` (analyzer.rs:726). -/
def no_primary_key (table_name : String) (position : Nat) : Error :=
  Error.new ("Table " ++ table_name ++ " does not have a primary key") position

/-- Embeds `binop_to_logical_operator` (analyzer.rs:290).  The source panics via
`unreachable!()` on every non-logical operator; those branches are
modelled by an arbitrary default (`and`) and no theorem below exercises
them. -/
def binop_to_logical_operator (binop : BinOp) : LogicalOperator :=
  match binop with
  | .and => LogicalOperator.and
  | .or => LogicalOperator.or
  | _ => LogicalOperator.and

/-- Embeds `binop_to_relational_operator` (analyzer.rs:314).  The source maps
`BiGe` to `GreaterThan` and `BiGt` to `GreaterThanEqual` (kept as-is) and
panics via `unreachable!()` on non-relational operators; those branches
are modelled by an arbitrary default (`equal`) and no theorem below
exercises them. -/
def binop_to_relational_operator (binop : BinOp) : RelationalOperator :=
  match binop with
  | .eq => RelationalOperator.equal
  | .lt => RelationalOperator.lesserThan
  | .le => RelationalOperator.lesserThanEqual
  | .ne => RelationalOperator.notEqual
  | .ge => RelationalOperator.greaterThan
  | .gt => RelationalOperator.greaterThanEqual
  | _ => RelationalOperator.equal

/-- The field names of the table that an insert leaves unassigned: not
among the assignment names and not the primary key
(analyzer.rs:346-350). -/
def missing_insert_fields (names : List String) (table : SqlFields) : List String :=
  (field_names table).filter (fun field => !names.contains field && some field != get_primary_key_field table)

/-- The single "missing fields" diagnostic of `check_insert_arguments`
(analyzer.rs:352-355), listing the missing names. -/
def missing_fields_error (missing_fields : List String) (position : Nat) : Error :=
  Error.new_with_code
    ("missing fields: `" ++ String.intercalate ("`, `") missing_fields ++ "`")
    position "E0063"

/-- Embeds `check_insert_arguments` (analyzer.rs:338): collect the assignment
names, compute the unassigned non-primary-key fields, and push one E0063
diagnostic listing them when there are any. -/
def check_insert_arguments (assignments : List Assignment) (position : Nat)
    (table : SqlFields) (errors : List Error) : List Error :=
  let names := assignments.map Assignment.identifier
  let missing := missing_insert_fields names table
  if missing.isEmpty then errors
  else errors ++ [missing_fields_error missing position]

/-- The fixed method-name set of `check_methods` (analyzer.rs:387). -/
def tql_methods : List String :=
  ["all", "create", "delete", "drop", "filter", "get", "insert", "join", "limit", "sort", "update"]

/-- Embeds `check_methods` (analyzer.rs:386): unknown-method errors (with
nearest-name help) for every call, and the struct-used-as-method error
when the chain is empty. -/
def check_methods (method_calls : MethodCalls) (errors : List Error) : List Error :=
  let errors := method_calls.calls.foldl
    (fun errs method_call =>
      if tql_methods.contains method_call.name then errs
      else
        errs ++
          [Error.new ("no method named `" ++ method_call.name ++ "` found in tql")
            method_call.position] ++
          (match find_near method_call.name tql_methods with
           | some name => [Error.new_help ("did you mean " ++ name ++ "?") method_call.position]
           | none => []))
    errors
  if method_calls.calls.isEmpty then
    errors ++
      [Error.new_with_code
        ("`" ++ method_calls.name ++
          "` is the name of a struct, but this expression uses it like a method name")
        method_calls.position "E0423",
       Error.new_help ("did you mean to write `" ++ method_calls.name ++ ".method()`?")
        method_calls.position]
  else errors

/-- Embeds `check_no_arguments` (analyzer.rs:426): arity error (singular/plural
aware) when a zero-argument method received arguments. -/
def check_no_arguments (method_call : MethodCall) (errors : List Error) : List Error :=
  if method_call.arguments.isEmpty then errors
  else
    let length := method_call.arguments.length
    let plural_verb := if length == 1 then " was" else "s were"
    errors ++
      [Error.new_with_code
        ("this method takes 0 parameters but " ++ toString length ++ " parameter" ++
          plural_verb ++ " supplied")
        method_call.position "E0061"]

/-- Embeds `unknown_method` (analyzer.rs:818): no such comparison method for the
type, with a nearest-name help among the type's registered methods. -/
def unknown_method (position : Nat) (object_type : Typ) (method_name : String)
    (type_methods : Option (List (String × String))) (errors : List Error) : List Error :=
  let errors := errors ++
    [Error.new
      ("no method named `" ++ method_name ++ "` found for type `" ++ object_type.display ++ "`")
      position]
  match type_methods with
  | some tms =>
      match find_near method_name (tms.map Prod.fst) with
      | some name => errors ++ [Error.new_help ("did you mean " ++ name ++ "?") position]
      | none => errors
  | none => errors

/-- Embeds `unknown_table_error` (analyzer.rs:835). -/
def unknown_table_error (table_name : String) (position : Nat) (sql_tables : SqlTables)
    (errors : List Error) : List Error :=
  let errors := errors ++
    [Error.new_with_code ("`" ++ table_name ++ "` does not name an SQL table") position "E0422"]
  match find_near table_name (sql_tables.map Prod.fst) with
  | some name => errors ++ [Error.new_help ("did you mean " ++ name ++ "?") position]
  | none =>
      errors ++
        [Error.new_help
          ("did you forget to add the #[sql_table] attribute on the " ++ table_name ++ " struct?")
          position]

/-- Embeds `argument_to_assignment` (analyzer.rs:138): the argument must be
`field = value`; the left side must be a path whose first segment names an
existing field.  The default assignment (empty identifier, `0` literal)
stands in on the failure paths, exactly as in the source. -/
def argument_to_assignment (arg : Expression) (table_name : String) (table : SqlFields) :
    SqlResult Assignment :=
  match arg with
  | .assign _ expr1 expr2 =>
      match expr1 with
      | .path pathSpan _ segments =>
          let identifier := segments.headD ""
          res ⟨identifier, expr2⟩ (check_field identifier pathSpan table_name table [])
      | _ => res ⟨"", expr2⟩ [Error.new ("Expected identifier") arg.span]
  | _ => res ⟨"", number_literal 0⟩ [Error.new ("Expected assignment") arg.span]

/-- Embeds `argument_to_join` (analyzer.rs:167): the argument must be a bare path
(no qself) naming a `Custom`-typed field; the referenced table is looked up
in the registry (the source reads the global `singleton()`, passed here as
`tables`) and must have a primary key, else a "no primary key" error. -/
def argument_to_join (tables : SqlTables) (arg : Expression) (table_name : String)
    (table : SqlFields) : SqlResult Join :=
  match arg with
  | .path pathSpan false segments =>
      let identifier := segments.headD ""
      let errors := check_field identifier pathSpan table_name table []
      match lookup_field table identifier with
      | some fieldType =>
          match fieldType.node with
          | Typ.custom related_table_name =>
              (match (lookup_table tables related_table_name).bind get_primary_key_field with
               | some primary_key_field =>
                   res (⟨identifier, table_name, primary_key_field, related_table_name⟩ : Join)
                     errors
               | none =>
                   res (⟨"", "", "", ""⟩ : Join)
                     (errors ++ [no_primary_key related_table_name arg.span]))
          | fieldType =>
              res (⟨"", "", "", ""⟩ : Join)
                (errors ++
                  [Error.new_with_code
                    ("mismatched types:\n expected `ForeignKey<_>`,\n    found `" ++
                      fieldType.display ++ "`")
                    arg.span "E0308"])
      | none => res (⟨"", "", "", ""⟩ : Join) errors
  | _ => res (⟨"", "", "", ""⟩ : Join) [Error.new ("Expected identifier") arg.span]

/-- The inner `identifier` helper of `argument_to_order`
(analyzer.rs:218): a single-segment path naming an existing field. -/
def order_identifier (arg : Expression) (identifier : Expression) (table_name : String)
    (table : SqlFields) : SqlResult String :=
  match identifier with
  | .path span _ segments =>
      if segments.length == 1 then
        let identifier := segments.headD ""
        res identifier (check_field identifier span table_name table [])
      else .err [Error.new ("Expected an identifier") arg.span]
  | _ => .err [Error.new ("Expected an identifier") arg.span]

/-- Embeds `argument_to_order` (analyzer.rs:217): a negated bare field sorts
descending, a bare path sorts ascending, anything else errors. -/
def argument_to_order (arg : Expression) (table_name : String) (table : SqlFields) :
    SqlResult Order :=
  match arg with
  | .unary _ UnOp.neg expr =>
      (match order_identifier arg expr table_name table with
       | .ok ident => res (Order.descending ident) []
       | .err errs => .err errs)
  | .path pathSpan false segments =>
      let identifier := segments.headD ""
      res (Order.ascending identifier) (check_field identifier pathSpan table_name table [])
  | _ => res (Order.ascending "") [Error.new ("Expected - or identifier") arg.span]

/-- Embeds `arguments_to_limit` (analyzer.rs:257): shape dispatch of the single
`limit` argument into a `Limit`. -/
def arguments_to_limit (expression : Expression) : SqlResult Limit :=
  match expression with
  | .rangeTo _ range_end => res (Limit.endRange range_end) []
  | .rangeFrom _ range_start => res (Limit.startRange range_start) []
  | .rangeFull _ range_start range_end => res (Limit.range range_start range_end) []
  | .lit _ _ | .path _ _ _ | .call _ _ | .methodCall _ _ _ _ | .binary _ _ _ _
  | .unary _ _ _ | .cast _ _ => res (Limit.index expression) []
  | _ => res Limit.noLimit [Error.new ("Expected index range or number expression") expression.span]

/-- The `try` helper of analyzer.rs:811 specialised to the accumulating
`(items, errors)` pair of `convert_arguments`: append the errors on
failure, push the item on success. -/
def try_accum (result : SqlResult α) (acc : List α × List Error) : List α × List Error :=
  match result with
  | .ok value => (acc.1 ++ [value], acc.2)
  | .err errs => (acc.1, acc.2 ++ errs)

/-- Embeds `convert_arguments` (analyzer.rs:457): convert every argument,
accumulating items and errors; succeed with all items only when no
argument failed. -/
def convert_arguments (arguments : List Expression) (table_name : String) (table : SqlFields)
    (convert_argument : Expression → String → SqlFields → SqlResult α) : SqlResult (List α) :=
  let p := arguments.foldl
    (fun acc arg => try_accum (convert_argument arg table_name table) acc) ([], [])
  res p.1 p.2

/-- Embeds `method_call_expression_to_filter_expression` (analyzer.rs:640):
resolve `object.method(..) op expr2` through the per-type method-template
registry.  When the receiver is not a path expression, the source's final
`else` silently returns the `NoFilters` dummy with no diagnostic. -/
def method_call_expression_to_filter_expression (methods : MethodsRegistry)
    (identSpan : Nat) (identName : String) (receiver : Expression) (table_name : String)
    (table : SqlFields) (op : BinOp) (expr2 : Expression) (errors : List Error) :
    FilterExpression × List Error :=
  let dummy := FilterExpression.noFilters
  match receiver with
  | .path _ _ segments =>
      let object := segments.headD ""
      let method_name := identName
      match lookup_field table object with
      | some object_type =>
          (match lookup_type_methods methods object_type.node with
           | some type_methods =>
               (match lookup_template type_methods method_name with
                | some template =>
                    (FilterExpression.filter
                      ⟨RValue.methodCall ⟨[], method_name, object, template⟩,
                        binop_to_relational_operator op, expr2⟩,
                     errors)
                | none =>
                    (dummy, unknown_method identSpan object_type.node method_name
                      (some type_methods) errors))
           | none => (dummy, unknown_method identSpan object_type.node method_name none errors))
      | none => (dummy, check_field object identSpan table_name table errors)
  | _ => (dummy, errors)

/-- Embeds `expression_to_filter_expression` (analyzer.rs:473): the recursive
filter builder.  The source's `try!` on the recursive conversions is an
early return that discards nothing but propagates the first failure —
translated by the explicit `match … | .err` arms. -/
def expression_to_filter_expression (methods : MethodsRegistry) (arg : Expression)
    (table_name : String) (table : SqlFields) : SqlResult FilterExpression :=
  match arg with
  | .binary _ op expr1 expr2 =>
      match expr1 with
      | .path pathSpan false segments =>
          let identifier := segments.headD ""
          let errors := check_field identifier pathSpan table_name table []
          res (FilterExpression.filter
            ⟨RValue.identifier identifier, binop_to_relational_operator op, expr2⟩) errors
      | .methodCall _ identSpan identName receiver =>
          let p := method_call_expression_to_filter_expression methods identSpan identName
            receiver table_name table op expr2 []
          res p.1 p.2
      | .binary _ _ _ _ | .paren _ _ | .unary _ UnOp.not _ =>
          (match expression_to_filter_expression methods expr1 table_name table with
           | .err errs => .err errs
           | .ok filter1 =>
               match expression_to_filter_expression methods expr2 table_name table with
               | .err errs => .err errs
               | .ok filter2 =>
                   res (FilterExpression.filters filter1 (binop_to_logical_operator op) filter2)
                     [])
      | _ =>
          res FilterExpression.noFilters
            [Error.new ("Expected identifier or binary operation") expr1.span]
  | .paren _ expr =>
      (match expression_to_filter_expression methods expr table_name table with
       | .err errs => .err errs
       | .ok filter => res (FilterExpression.parenFilter filter) [])
  | .unary _ UnOp.not expr =>
      (match expression_to_filter_expression methods expr table_name table with
       | .err errs => .err errs
       | .ok filter => res (FilterExpression.negFilter filter) [])
  | _ => res FilterExpression.noFilters [Error.new ("Expected binary operation") arg.span]

/-- Embeds `get_expression_to_filter_expression` (analyzer.rs:533): the `get(arg)`
special case — requires a primary key; a literal or path argument becomes
`primary_key == arg` with no limit, anything else goes through the generic
filter builder with the limit forced to index 0. -/
def get_expression_to_filter_expression (methods : MethodsRegistry) (arg : Expression)
    (table_name : String) (table : SqlFields) : SqlResult (FilterExpression × Limit) :=
  match get_primary_key_field table with
  | some primary_key_field =>
      (match arg with
       | .lit _ _ | .path _ _ _ =>
           res
             (FilterExpression.filter
               ⟨RValue.identifier primary_key_field, RelationalOperator.equal, arg⟩,
              Limit.noLimit)
             []
       | _ =>
           match expression_to_filter_expression methods arg table_name table with
           | .ok filter => .ok (filter, Limit.index (number_literal 0))
           | .err errs => .err errs)
  | none => .err [no_primary_key table_name arg.span]

/-- Embeds `has_joins` (analyzer.rs:633): whether a join on field `name` exists. -/
def has_joins (joins : List Join) (name : String) : Bool :=
  (joins.map Join.left_field).any (fun field_name => field_name == name)

/-- Embeds `get_field_type` (analyzer.rs:554): the declared type of an identifier
rvalue, looked up through the registry (the source reads the global
`singleton()`, passed here as `tables`); method-call rvalues have no
declared type. -/
def get_field_type (tables : SqlTables) (table_name : String) (rvalue : RValue) :
    Option (Spanned Typ) :=
  match rvalue with
  | .identifier identifier => (lookup_table tables table_name).bind (fun t => lookup_field t identifier)
  | .methodCall _ => none

/-- Embeds `check_field_type` (analyzer.rs:378). -/
def check_field_type (tables : SqlTables) (table_name : String) (rvalue : RValue)
    (value : Expression) (errors : List Error) : List Error :=
  match get_field_type tables table_name rvalue with
  | some field_type => check_type field_type.node value errors
  | none => errors

/-- Embeds `get_query_fields` (analyzer.rs:569): the fully qualified projected
columns of a select.  Note the source's shadowing `let table_name =
foreign_table`, which qualifies joined fields by the joined table's
name. -/
def get_query_fields (table : SqlFields) (table_name : String) (joins : List Join)
    (sql_tables : SqlTables) : List Identifier :=
  table.fields.foldl
    (fun fields ft =>
      match ft.2.node with
      | Typ.custom foreign_table_name =>
          (match lookup_table sql_tables foreign_table_name with
           | some foreign_table =>
               if has_joins joins ft.1 then
                 foreign_table.fields.foldl
                   (fun fields2 ft2 =>
                     match ft2.2.node with
                     | Typ.custom _ => fields2
                     | Typ.unsupported _ => fields2
                     | _ => fields2 ++ [foreign_table_name ++ "." ++ ft2.1])
                   fields
               else fields
           | none => fields)
      | Typ.unsupported _ => fields
      | _ => fields ++ [table_name ++ "." ++ ft.1])
    []

/-- Embeds `analyze_assignments_types` (analyzer.rs:68). -/
def analyze_assignments_types (tables : SqlTables) (assignments : List Assignment)
    (table_name : String) (errors : List Error) : List Error :=
  assignments.foldl
    (fun errs assignment =>
      check_field_type tables table_name (RValue.identifier assignment.identifier)
        assignment.value errs)
    errors

/-- Embeds `analyze_filter_types` (analyzer.rs:75). -/
def analyze_filter_types (tables : SqlTables) (filter : FilterExpression) (table_name : String)
    (errors : List Error) : List Error :=
  match filter with
  | .filter f => check_field_type tables table_name f.operand1 f.operand2 errors
  | .filters operand1 _ operand2 =>
      analyze_filter_types tables operand2 table_name
        (analyze_filter_types tables operand1 table_name errors)
  | .negFilter inner => analyze_filter_types tables inner table_name errors
  | .noFilters => errors
  | .parenFilter inner => analyze_filter_types tables inner table_name errors

/-- Embeds `analyze_limit_types` (analyzer.rs:96 and analyzer/limit.rs:37):
type-check every bound the limit carries against `Type::I64`. -/
def analyze_limit_types (limit : Limit) (errors : List Error) : List Error :=
  match limit with
  | .endRange expression => check_type Typ.i64 expression errors
  | .index expression => check_type Typ.i64 expression errors
  | .limitOffset expression1 expression2 =>
      check_type Typ.i64 expression2 (check_type Typ.i64 expression1 errors)
  | .noLimit => errors
  | .range expression1 expression2 =>
      check_type Typ.i64 expression2 (check_type Typ.i64 expression1 errors)
  | .startRange expression => check_type Typ.i64 expression errors

/-- Embeds `analyze_types` (analyzer.rs:114): the literal-type checking pass over
a built query. -/
def analyze_types (tables : SqlTables) (query : Query) : SqlResult Query :=
  let errors :=
    match query with
    | .createTable _ _ => []
    | .delete filter table => analyze_filter_types tables filter table []
    | .drop _ => []
    | .insert assignments table => analyze_assignments_types tables assignments table []
    | .select _ filter _ limit _ table =>
        analyze_limit_types limit (analyze_filter_types tables filter table [])
    | .update assignments filter table =>
        analyze_assignments_types tables assignments table
          (analyze_filter_types tables filter table [])
  res query errors

/-- The accumulators of `process_methods` (analyzer.rs:731-739), one field
per local mutable variable. -/
structure AnalyzerState where
  errors : List Error
  assignments : List Assignment
  filter_expression : FilterExpression
  joins : List Join
  limit : Limit
  order : List Order
  query_type : SqlQueryType
  typed_fields : List TypedField
  deriving DecidableEq, Repr

/-- The initial accumulator values of `process_methods`. -/
def initial_state : AnalyzerState :=
  ⟨[], [], FilterExpression.noFilters, [], Limit.noLimit, [], SqlQueryType.select, []⟩

/-- The `try` helper of analyzer.rs:811 specialised to the analyzer state:
append the errors on failure, run the state update on success. -/
def try_state (result : SqlResult α) (s : AnalyzerState)
    (fn_using_result : α → AnalyzerState → AnalyzerState) : AnalyzerState :=
  match result with
  | .ok value => fn_using_result value s
  | .err errs => { s with errors := s.errors ++ errs }

/-- A placeholder expression standing in for the source's out-of-bounds
`arguments[0]` indexing (a panic) when a `filter`/`get`/`limit` call has
no argument; no theorem below exercises that case. -/
def dummy_argument : Expression := Expr.other 0

/-- One iteration of the `process_methods` loop (analyzer.rs:740-805):
dispatch on the method name and fold the call into the accumulators.  The
Rust `match` on the name is rendered as an `if`-chain. -/
def process_call (tables : SqlTables) (methods : MethodsRegistry) (table : SqlFields)
    (table_name : String) (s : AnalyzerState) (method_call : MethodCall) : AnalyzerState :=
  if method_call.name = "all" then
    { s with errors := check_no_arguments method_call s.errors }
  else if method_call.name = "create" then
    { s with
      errors := check_no_arguments method_call s.errors,
      query_type := SqlQueryType.createTable,
      typed_fields := table.fields.foldl
        (fun tfs ft => tfs ++ [(⟨ft.1, ft.2.node.to_sql⟩ : TypedField)]) s.typed_fields }
  else if method_call.name = "delete" then
    { s with errors := check_no_arguments method_call s.errors,
             query_type := SqlQueryType.delete }
  else if method_call.name = "drop" then
    { s with errors := check_no_arguments method_call s.errors,
             query_type := SqlQueryType.drop }
  else if method_call.name = "filter" then
    try_state
      (expression_to_filter_expression methods (method_call.arguments.headD dummy_argument)
        table_name table)
      s (fun filter s => { s with filter_expression := filter })
  else if method_call.name = "get" then
    try_state
      (get_expression_to_filter_expression methods (method_call.arguments.headD dummy_argument)
        table_name table)
      s (fun p s => { s with filter_expression := p.1, limit := p.2 })
  else if method_call.name = "insert" then
    let s := try_state
      (convert_arguments method_call.arguments table_name table argument_to_assignment)
      s (fun assigns s => { s with assignments := assigns })
    { s with
      errors := check_insert_arguments s.assignments method_call.position table s.errors,
      query_type := SqlQueryType.insert }
  else if method_call.name = "join" then
    try_state
      (convert_arguments method_call.arguments table_name table (argument_to_join tables))
      s (fun new_joins s => { s with joins := s.joins ++ new_joins })
  else if method_call.name = "limit" then
    try_state (arguments_to_limit (method_call.arguments.headD dummy_argument))
      s (fun new_limit s => { s with limit := new_limit })
  else if method_call.name = "sort" then
    try_state (convert_arguments method_call.arguments table_name table argument_to_order)
      s (fun new_order s => { s with order := new_order })
  else if method_call.name = "update" then
    let s := try_state
      (convert_arguments method_call.arguments table_name table argument_to_assignment)
      s (fun assigns s => { s with assignments := assigns })
    { s with query_type := SqlQueryType.update }
  else
    s

/-- The query data tuple returned by `process_methods` (analyzer.rs:36). -/
abbrev QueryData :=
  FilterExpression × List Join × Limit × List Order × List Assignment × List TypedField ×
    SqlQueryType

/-- Embeds `process_methods` (analyzer.rs:731): fold every call into the
accumulators, then succeed with the gathered data iff no diagnostics were
produced. -/
def process_methods (tables : SqlTables) (methods : MethodsRegistry) (calls : List MethodCall)
    (table : SqlFields) (table_name : String) : SqlResult QueryData :=
  let s := calls.foldl (process_call tables methods table table_name) initial_state
  res (s.filter_expression, s.joins, s.limit, s.order, s.assignments, s.typed_fields,
    s.query_type) s.errors

/-- Embeds `new_query` (analyzer.rs:686): assemble the query IR from the gathered
data according to the query kind. -/
def new_query (fields : List Identifier) (filter_expression : FilterExpression)
    (joins : List Join) (limit : Limit) (order : List Order) (assignments : List Assignment)
    (typed_fields : List TypedField) (query_type : SqlQueryType) (table_name : String) : Query :=
  match query_type with
  | .createTable => Query.createTable typed_fields table_name
  | .delete => Query.delete filter_expression table_name
  | .drop => Query.drop table_name
  | .insert => Query.insert assignments table_name
  | .select => Query.select fields filter_expression joins limit order table_name
  | .update => Query.update assignments filter_expression table_name

/-- Embeds `analyze` (analyzer.rs:39): the whole semantic analysis.  The source's
`try!(process_methods(..))` early-returns the processing failure,
discarding the table/method diagnostics gathered before it — translated by
the explicit `.err` arm. -/
def analyze (sql_tables : SqlTables) (methods : MethodsRegistry) (method_calls : MethodCalls) :
    SqlResult Query :=
  let table_name := method_calls.name
  let errors :=
    if contains_table sql_tables table_name then []
    else unknown_table_error table_name method_calls.position sql_tables []
  let errors := check_methods method_calls errors
  match lookup_table sql_tables table_name with
  | some table =>
      (match process_methods sql_tables methods method_calls.calls table table_name with
       | .err errs => .err errs
       | .ok (filter_expression, joins, limit, order, assignments, typed_fields, query_type) =>
           let fields := get_query_fields table table_name joins sql_tables
           res
             (new_query fields filter_expression joins limit order assignments typed_fields
               query_type table_name)
             errors)
  | none =>
      res
        (new_query [] FilterExpression.noFilters [] Limit.noLimit [] [] []
          SqlQueryType.select table_name)
        errors

/-!  Claim-side definitions, written from the specification's words, to be
compared against the source-translated functions above. -/

/-- Claim side, from §4.2's `get` special case: the argument is a literal
or a bare path. -/
def is_literal_or_path : Expression → Bool
  | .lit _ _ => true
  | .path _ _ _ => true
  | _ => false

/-- Claim side, from §3's `Limit` invariant: the bound expressions a limit
carries — the index, each range endpoint, and both limit and offset;
`NoLimit` carries none. -/
def limit_bounds : Limit → List Expression
  | .endRange e => [e]
  | .index e => [e]
  | .limitOffset l o => [l, o]
  | .noLimit => []
  | .range a b => [a, b]
  | .startRange e => [e]

/-- Claim side, from §4.5's words: project every non-Custom,
non-Unsupported field of the primary table qualified `table.field`; for
each Custom field that has a matching Join, also project every non-Custom,
non-Unsupported field of the joined table (as registered) qualified
`joined_table.field` — one level deep, never the Custom field itself. -/
def projected_columns_spec (table : SqlFields) (table_name : String) (joins : List Join)
    (sql_tables : SqlTables) : List Identifier :=
  table.fields.flatMap
    (fun ft =>
      match ft.2.node with
      | Typ.custom foreign_table_name =>
          if has_joins joins ft.1 then
            match lookup_table sql_tables foreign_table_name with
            | some foreign_table =>
                foreign_table.fields.filterMap
                  (fun ft2 =>
                    match ft2.2.node with
                    | Typ.custom _ => none
                    | Typ.unsupported _ => none
                    | _ => some (foreign_table_name ++ "." ++ ft2.1))
            | none => []
          else []
      | Typ.unsupported _ => []
      | _ => [table_name ++ "." ++ ft.1])

/-- Claim side, from §3's insert invariant: the table's field names minus
its primary key. -/
def fields_minus_primary_key (table : SqlFields) : List String :=
  (field_names table).filter (fun field => some field != get_primary_key_field table)

/-- Claim side: whether an expression is a path expression. -/
def is_path : Expression → Bool
  | .path _ _ _ => true
  | _ => false

/-!  Concrete fixtures used by the witnesses and counterexamples. -/

/-- A registered table `T` with primary key `id` and a string field `f1`. -/
def example_table : SqlFields :=
  ⟨[("id", ⟨Typ.i32, 0⟩), ("f1", ⟨Typ.string, 1⟩)], some "id"⟩

/-- A registry holding only `T`. -/
def example_tables : SqlTables := [("T", example_table)]

/-- A table `R` without a primary key, and a table `S` with a foreign key
into it, for the C5 witness. -/
def table_without_pk : SqlFields := ⟨[("x", ⟨Typ.i32, 0⟩)], none⟩

/-- The owning table of the dangling foreign key. -/
def table_with_fk : SqlFields :=
  ⟨[("id", ⟨Typ.i32, 0⟩), ("fk", ⟨Typ.custom "R", 1⟩)], some "id"⟩

/-- The registry for the C5 witness. -/
def tables_with_fk : SqlTables := [("S", table_with_fk), ("R", table_without_pk)]

/-- A table with two foreign keys, one resolvable (`R2` has a primary
key), one not (`R` has none), for the C10 witness. -/
def table_mixed_fks : SqlFields :=
  ⟨[("id", ⟨Typ.i32, 0⟩), ("fka", ⟨Typ.custom "R2", 1⟩), ("fkb", ⟨Typ.custom "R", 2⟩)],
   some "id"⟩

/-- A referenced table with a primary key. -/
def table_r2 : SqlFields := ⟨[("rid", ⟨Typ.i32, 0⟩)], some "rid"⟩

/-- The registry for the C10 witness. -/
def tables_mixed : SqlTables :=
  [("S2", table_mixed_fks), ("R2", table_r2), ("R", table_without_pk)]

/-- One `field = value` insert argument, described by its data: the spans
of the assignment and of its left path, the path's qself flag, the field
name and the value expression. -/
structure AssignSpec where
  span : Nat
  pathSpan : Nat
  qself : Bool
  field : String
  value : Expression
  deriving DecidableEq, Repr

/-- The `field = value` expression an `AssignSpec` describes. -/
def mk_assign_expr (a : AssignSpec) : Expression :=
  Expr.assign a.span (Expr.path a.pathSpan a.qself [a.field]) a.value

/-!  Generic helper lemmas about the fold/append shapes of the embedding. -/

/-- A push-style fold is an append of a map. -/
theorem foldl_push_eq_map (l : List α) (f : α → β) (acc : List β) :
    l.foldl (fun a x => a ++ [f x]) acc = acc ++ l.map f := by
  induction l generalizing acc with
  | nil => simp
  | cons x xs ih => simp [ih]

/-- The inner loop of `get_query_fields` appends the joined table's
non-Custom, non-Unsupported fields. -/
theorem foreign_fields_fold_eq (foreign_table_name : String)
    (fs : List (String × Spanned Typ)) (acc : List String) :
    fs.foldl
      (fun fields2 ft2 =>
        match ft2.2.node with
        | Typ.custom _ => fields2
        | Typ.unsupported _ => fields2
        | _ => fields2 ++ [foreign_table_name ++ "." ++ ft2.1])
      acc =
    acc ++
      fs.filterMap
        (fun ft2 =>
          match ft2.2.node with
          | Typ.custom _ => none
          | Typ.unsupported _ => none
          | _ => some (foreign_table_name ++ "." ++ ft2.1)) := by
  induction fs generalizing acc with
  | nil => simp
  | cons ft fs ih =>
    obtain ⟨name, typ, span⟩ := ft
    cases typ <;> simp [ih]

/-- The outer loop of `get_query_fields` appends each field's
contribution. -/
theorem query_fields_fold_eq (fs : List (String × Spanned Typ)) (table_name : String)
    (joins : List Join) (sql_tables : SqlTables) (acc : List String) :
    fs.foldl
      (fun fields ft =>
        match ft.2.node with
        | Typ.custom foreign_table_name =>
            (match lookup_table sql_tables foreign_table_name with
             | some foreign_table =>
                 if has_joins joins ft.1 then
                   foreign_table.fields.foldl
                     (fun fields2 ft2 =>
                       match ft2.2.node with
                       | Typ.custom _ => fields2
                       | Typ.unsupported _ => fields2
                       | _ => fields2 ++ [foreign_table_name ++ "." ++ ft2.1])
                     fields
                 else fields
             | none => fields)
        | Typ.unsupported _ => fields
        | _ => fields ++ [table_name ++ "." ++ ft.1])
      acc =
    acc ++
      fs.flatMap
        (fun ft =>
          match ft.2.node with
          | Typ.custom foreign_table_name =>
              if has_joins joins ft.1 then
                match lookup_table sql_tables foreign_table_name with
                | some foreign_table =>
                    foreign_table.fields.filterMap
                      (fun ft2 =>
                        match ft2.2.node with
                        | Typ.custom _ => none
                        | Typ.unsupported _ => none
                        | _ => some (foreign_table_name ++ "." ++ ft2.1))
                | none => []
              else []
          | Typ.unsupported _ => []
          | _ => [table_name ++ "." ++ ft.1]) := by
  induction fs generalizing acc with
  | nil => simp
  | cons ft fs ih =>
    obtain ⟨name, typ, span⟩ := ft
    rw [List.foldl_cons, List.flatMap_cons, ih, ← List.append_assoc]
    congr 1
    cases typ with
    | custom foreign_table_name =>
        cases hl : lookup_table sql_tables foreign_table_name with
        | some foreign_table =>
            by_cases hj : has_joins joins name <;>
              simp [hl, hj, foreign_fields_fold_eq]
        | none => simp [hl]
    | unsupported n => simp
    | bool => simp
    | i8 => simp
    | i16 => simp
    | i32 => simp
    | i64 => simp
    | isize => simp
    | u8 => simp
    | u16 => simp
    | u32 => simp
    | u64 => simp
    | usize => simp
    | f32 => simp
    | f64 => simp
    | char => simp
    | string => simp
    | byteString => simp

/-- Pattern-matching a result into a paired success is `SqlResult.map`. -/
theorem match_result_pair (r : SqlResult FilterExpression) (l : Limit) :
    (match r with
     | .ok filter => SqlResult.ok (filter, l)
     | .err errs => SqlResult.err errs) =
      r.map (fun filter => (filter, l)) := by
  cases r <;> rfl

/-- C4: for every Select, the projected column list is exactly the spec's
§4.5 projection — every non-Custom, non-Unsupported field of the primary
table qualified `table.field`, plus, for each Custom field with a matching
join, every non-Custom, non-Unsupported field of the registered joined
table qualified `joined_table.field`; Custom fields are never themselves
projected and joined tables are expanded one level deep. -/
theorem select_projects_spec_columns (table : SqlFields) (table_name : String)
    (joins : List Join) (sql_tables : SqlTables) :
    get_query_fields table table_name joins sql_tables =
      projected_columns_spec table table_name joins sql_tables := by
  unfold get_query_fields projected_columns_spec
  rw [query_fields_fold_eq]
  simp

/-- C7: every bound expression a `Limit` carries (the index, each range
endpoint, and both limit and offset) is type-checked against the 64-bit
signed integer type, and `NoLimit` checks nothing. -/
theorem limit_bounds_checked_against_i64 (limit : Limit) (errors : List Error) :
    analyze_limit_types limit errors =
      (limit_bounds limit).foldl (fun errs e => check_type Typ.i64 e errs) errors := by
  cases limit <;> simp [analyze_limit_types, limit_bounds]

/-- C3: `get(arg)` requires a primary key (else the "no primary key"
error); a literal or bare-path argument yields the filter
`primary_key == arg` with `Limit::NoLimit`; any other argument goes
through the generic filter-expression rules with the limit forced to
`Limit::Index(0)`. -/
theorem get_argument_dispatch (methods : MethodsRegistry) (arg : Expression)
    (table_name : String) (table : SqlFields) :
    get_expression_to_filter_expression methods arg table_name table =
      match get_primary_key_field table with
      | none => SqlResult.err [no_primary_key table_name arg.span]
      | some pk =>
          if is_literal_or_path arg then
            SqlResult.ok
              (FilterExpression.filter ⟨RValue.identifier pk, RelationalOperator.equal, arg⟩,
               Limit.noLimit)
          else
            (expression_to_filter_expression methods arg table_name table).map
              (fun filter => (filter, Limit.index (number_literal 0))) := by
  cases h : get_primary_key_field table with
  | none => cases arg <;> simp [get_expression_to_filter_expression, h]
  | some pk =>
      cases arg <;>
        simp [get_expression_to_filter_expression, h, is_literal_or_path, res,
          match_result_pair]

/-- C8: determinism — the analysis is embedded as a pure function of the
registry, the method-template registry and the call chain (the spec fixes
the registry as immutable during analysis), so running it twice on equal
inputs yields identical diagnostics and an identical query IR. -/
theorem analyze_deterministic (tables1 tables2 : SqlTables)
    (methods1 methods2 : MethodsRegistry) (calls1 calls2 : MethodCalls)
    (htables : tables1 = tables2) (hmethods : methods1 = methods2)
    (hcalls : calls1 = calls2) :
    analyze tables1 methods1 calls1 = analyze tables2 methods2 calls2 := by
  rw [htables, hmethods, hcalls]

/-- Witness for C8 at a concrete input. -/
theorem analyze_deterministic_witness :
    analyze example_tables [] ⟨"T", [⟨"create", [], 0⟩], 1⟩ =
      analyze example_tables [] ⟨"T", [⟨"create", [], 0⟩], 1⟩ :=
  analyze_deterministic example_tables example_tables [] [] ⟨"T", [⟨"create", [], 0⟩], 1⟩
    ⟨"T", [⟨"create", [], 0⟩], 1⟩ rfl rfl rfl

/-- C6: `T.create()` on a registered table yields a CreateTable IR whose
typed-field list has one entry per schema field, in declaration order,
each carrying the field's dialect SQL type string. -/
theorem create_lists_every_field (sql_tables : SqlTables) (methods : MethodsRegistry)
    (table_name : String) (table : SqlFields) (pos cpos : Nat)
    (htable : lookup_table sql_tables table_name = some table) :
    analyze sql_tables methods ⟨table_name, [⟨"create", [], pos⟩], cpos⟩ =
      SqlResult.ok
        (Query.createTable
          (table.fields.map (fun ft => (⟨ft.1, ft.2.node.to_sql⟩ : TypedField)))
          table_name) := by
  have hc : contains_table sql_tables table_name = true := by
    rw [contains_table, htable]; rfl
  simp [analyze, hc, htable, check_methods, tql_methods, process_methods, process_call,
    check_no_arguments, initial_state, res, new_query, foldl_push_eq_map]

/-- Witness for C6 at a concrete registry. -/
theorem create_lists_every_field_witness :
    lookup_table example_tables "T" = some example_table ∧
      analyze example_tables [] ⟨"T", [⟨"create", [], 2⟩], 3⟩ =
        SqlResult.ok
          (Query.createTable
            (example_table.fields.map (fun ft => (⟨ft.1, ft.2.node.to_sql⟩ : TypedField)))
            "T") :=
  ⟨by decide, create_lists_every_field example_tables [] "T" example_table 2 3 (by decide)⟩

/-- C5: a `join(fk)` argument naming a Custom-typed field referencing `R`
produces the join `{left_table, fk, R, R's primary key}` when `R` is
registered with a primary key; when `R` is unknown or lacks a primary key
it produces the "no primary key" diagnostic, and the join accumulator
gains no entry. -/
theorem join_argument_resolution (tables : SqlTables) (methods : MethodsRegistry)
    (table_name : String) (table : SqlFields) (sp fspan pos : Nat) (id related : String)
    (hfield : lookup_field table id = some ⟨Typ.custom related, fspan⟩) :
    (argument_to_join tables (Expr.path sp false [id]) table_name table =
       match (lookup_table tables related).bind get_primary_key_field with
       | some pk => SqlResult.ok (⟨id, table_name, pk, related⟩ : Join)
       | none => SqlResult.err [no_primary_key related sp]) ∧
    ((lookup_table tables related).bind get_primary_key_field = none →
      ∀ s : AnalyzerState,
        (process_call tables methods table table_name s
          ⟨"join", [Expr.path sp false [id]], pos⟩).joins = s.joins) := by
  have hcf : contains_field table id = true := by
    rw [contains_field, hfield]; rfl
  have hmain : argument_to_join tables (Expr.path sp false [id]) table_name table =
      match (lookup_table tables related).bind get_primary_key_field with
      | some pk => SqlResult.ok (⟨id, table_name, pk, related⟩ : Join)
      | none => SqlResult.err [no_primary_key related sp] := by
    cases hpk : (lookup_table tables related).bind get_primary_key_field with
    | some pk => simp [argument_to_join, check_field, hcf, hfield, hpk, res]
    | none => simp [argument_to_join, check_field, hcf, hfield, hpk, res, Expr.span]
  refine ⟨hmain, fun hnone s => ?_⟩
  have hjoin : argument_to_join tables (Expr.path sp false [id]) table_name table =
      SqlResult.err [no_primary_key related sp] := by
    rw [hmain, hnone]
  simp [process_call, try_state, convert_arguments, try_accum, hjoin, res]

/-- Witness for C5 at a concrete registry whose referenced table has no
primary key: the diagnostic is produced and the join list stays empty. -/
theorem join_argument_resolution_witness :
    lookup_field table_with_fk "fk" = some ⟨Typ.custom "R", 1⟩ ∧
      argument_to_join tables_with_fk (Expr.path 4 false ["fk"]) "S" table_with_fk =
        SqlResult.err [no_primary_key "R" 4] ∧
      (process_call tables_with_fk [] table_with_fk "S" initial_state
        ⟨"join", [Expr.path 4 false ["fk"]], 5⟩).joins = [] := by
  have h := join_argument_resolution tables_with_fk [] "S" table_with_fk 4 1 5 "fk" "R"
    (by decide)
  refine ⟨by decide, ?_, ?_⟩
  · rw [h.1]; decide
  · exact h.2 (by decide) initial_state

/-- C9: a binary comparison whose left side is a method call on a
receiver that is not a bare path yields the `NoFilters` placeholder with
no diagnostic at all, and the analysis succeeds with the filter silently
discarded. -/
theorem non_path_receiver_filter_silently_dropped (methods : MethodsRegistry)
    (sql_tables : SqlTables) (table_name : String) (table : SqlFields)
    (sp ms identSpan pos cpos : Nat) (identName : String) (receiver e2 : Expression)
    (op : BinOp) (hreceiver : is_path receiver = false)
    (htable : lookup_table sql_tables table_name = some table) :
    expression_to_filter_expression methods
        (Expr.binary sp op (Expr.methodCall ms identSpan identName receiver) e2)
        table_name table = SqlResult.ok FilterExpression.noFilters ∧
      analyze sql_tables methods
          ⟨table_name,
            [⟨"filter", [Expr.binary sp op (Expr.methodCall ms identSpan identName receiver) e2],
              pos⟩],
            cpos⟩ =
        SqlResult.ok
          (Query.select (get_query_fields table table_name [] sql_tables)
            FilterExpression.noFilters [] Limit.noLimit [] table_name) := by
  have h1 : method_call_expression_to_filter_expression methods identSpan identName receiver
      table_name table op e2 [] = (FilterExpression.noFilters, []) := by
    cases receiver <;> simp_all [method_call_expression_to_filter_expression, is_path]
  have h2 : expression_to_filter_expression methods
      (Expr.binary sp op (Expr.methodCall ms identSpan identName receiver) e2)
      table_name table = SqlResult.ok FilterExpression.noFilters := by
    simp [expression_to_filter_expression, h1, res]
  have hc : contains_table sql_tables table_name = true := by
    rw [contains_table, htable]; rfl
  refine ⟨h2, ?_⟩
  simp [analyze, hc, htable, check_methods, tql_methods, process_methods, process_call,
    try_state, h2, initial_state, res, new_query]

/-- Witness for C9: `(a + b).contains(x) == y` on the example table. -/
theorem non_path_receiver_filter_silently_dropped_witness :
    expression_to_filter_expression []
        (Expr.binary 1 BinOp.eq
          (Expr.methodCall 2 3 "contains"
            (Expr.binary 4 BinOp.add (Expr.path 5 false ["a"]) (Expr.path 6 false ["b"])))
          (Expr.path 7 false ["y"]))
        "T" example_table = SqlResult.ok FilterExpression.noFilters ∧
      analyze example_tables []
          ⟨"T",
            [⟨"filter",
              [Expr.binary 1 BinOp.eq
                (Expr.methodCall 2 3 "contains"
                  (Expr.binary 4 BinOp.add (Expr.path 5 false ["a"]) (Expr.path 6 false ["b"])))
                (Expr.path 7 false ["y"])],
              8⟩],
            9⟩ =
        SqlResult.ok
          (Query.select (get_query_fields example_table "T" [] example_tables)
            FilterExpression.noFilters [] Limit.noLimit [] "T") :=
  non_path_receiver_filter_silently_dropped [] example_tables "T" example_table 1 2 3 8 9
    "contains"
    (Expr.binary 4 BinOp.add (Expr.path 5 false ["a"]) (Expr.path 6 false ["b"]))
    (Expr.path 7 false ["y"]) BinOp.eq (by decide) (by decide)

/-- The error component of the `convert_arguments` fold is the
concatenation of every argument's conversion errors. -/
theorem convert_arguments_fold_errors {α : Type}
    (convert : Expression → String → SqlFields → SqlResult α) (arguments : List Expression)
    (table_name : String) (table : SqlFields) (acc : List α × List Error) :
    (arguments.foldl (fun acc arg => try_accum (convert arg table_name table) acc) acc).2 =
      acc.2 ++ arguments.flatMap (fun arg => (convert arg table_name table).toErrors) := by
  induction arguments generalizing acc with
  | nil => simp
  | cons a as ih =>
    rw [List.foldl_cons, List.flatMap_cons, ih, ← List.append_assoc]
    congr 1
    cases h : convert a table_name table <;> simp [try_accum, h, SqlResult.toErrors]

/-- C10: argument conversion is all-or-nothing per call — when any one
argument's conversion fails, `convert_arguments` fails as a whole (the
successfully converted arguments are discarded with it), and in
particular a `join` call containing a failing argument adds no join
entries at all. -/
theorem convert_arguments_all_or_nothing :
    (∀ {α : Type} (convert : Expression → String → SqlFields → SqlResult α)
        (arguments : List Expression) (table_name : String) (table : SqlFields),
      (∃ arg ∈ arguments, ∃ errs, errs ≠ [] ∧
          convert arg table_name table = SqlResult.err errs) →
      ∃ errs, convert_arguments arguments table_name table convert = SqlResult.err errs) ∧
    (∀ (tables : SqlTables) (methods : MethodsRegistry) (table : SqlFields)
        (table_name : String) (s : AnalyzerState) (arguments : List Expression) (pos : Nat),
      (∃ arg ∈ arguments, ∃ errs, errs ≠ [] ∧
          argument_to_join tables arg table_name table = SqlResult.err errs) →
      (process_call tables methods table table_name s ⟨"join", arguments, pos⟩).joins =
        s.joins) := by
  have part1 : ∀ {α : Type} (convert : Expression → String → SqlFields → SqlResult α)
      (arguments : List Expression) (table_name : String) (table : SqlFields),
      (∃ arg ∈ arguments, ∃ errs, errs ≠ [] ∧
          convert arg table_name table = SqlResult.err errs) →
      ∃ errs, convert_arguments arguments table_name table convert = SqlResult.err errs := by
    intro α convert arguments table_name table h
    obtain ⟨arg, hmem, errs, hne, heq⟩ := h
    obtain ⟨e, he⟩ := List.exists_mem_of_ne_nil errs hne
    have hmem2 : e ∈ arguments.flatMap (fun a => (convert a table_name table).toErrors) :=
      List.mem_flatMap.mpr ⟨arg, hmem, by rw [heq]; exact he⟩
    have hne3 : (arguments.flatMap (fun a => (convert a table_name table).toErrors)).isEmpty
        = false := by
      cases hfm : arguments.flatMap (fun a => (convert a table_name table).toErrors) with
      | nil => exact absurd (hfm ▸ hmem2) (List.not_mem_nil e)
      | cons x xs => rfl
    refine ⟨arguments.flatMap (fun a => (convert a table_name table).toErrors), ?_⟩
    simp only [convert_arguments]
    rw [convert_arguments_fold_errors]
    simp [res, hne3]
  refine ⟨part1, ?_⟩
  intro tables methods table table_name s arguments pos h
  obtain ⟨errs, herr⟩ := part1 (argument_to_join tables) arguments table_name table h
  simp [process_call, try_state, herr]

/-- Witness for C10: a join call with one valid (`fka`) and one invalid
(`fkb`, referencing a table without a primary key) argument fails as a
whole and adds no join entries. -/
theorem convert_arguments_all_or_nothing_witness :
    (∃ errs,
      convert_arguments [Expr.path 4 false ["fka"], Expr.path 5 false ["fkb"]] "S2"
          table_mixed_fks (argument_to_join tables_mixed) = SqlResult.err errs) ∧
      (process_call tables_mixed [] table_mixed_fks "S2" initial_state
        ⟨"join", [Expr.path 4 false ["fka"], Expr.path 5 false ["fkb"]], 6⟩).joins = [] :=
  ⟨convert_arguments_all_or_nothing.1 (argument_to_join tables_mixed)
      [Expr.path 4 false ["fka"], Expr.path 5 false ["fkb"]] "S2" table_mixed_fks
      ⟨Expr.path 5 false ["fkb"], by decide, [no_primary_key "R" 5], by decide, by decide⟩,
   convert_arguments_all_or_nothing.2 tables_mixed [] table_mixed_fks "S2" initial_state
      [Expr.path 4 false ["fka"], Expr.path 5 false ["fkb"]] 6
      ⟨Expr.path 5 false ["fkb"], by decide, [no_primary_key "R" 5], by decide, by decide⟩⟩

/-- One `process_methods` iteration only appends to the diagnostics list:
its result from any starting diagnostics equals its result from an empty
list with the starting diagnostics prepended, and the other accumulators
do not depend on the diagnostics gathered so far. -/
theorem process_call_errors_append (tables : SqlTables) (methods : MethodsRegistry)
    (table : SqlFields) (table_name : String) (s : AnalyzerState) (mc : MethodCall) :
    process_call tables methods table table_name s mc =
      { process_call tables methods table table_name { s with errors := [] } mc with
        errors :=
          s.errors ++
            (process_call tables methods table table_name { s with errors := [] } mc).errors } := by
  by_cases h1 : mc.name = "all"
  · by_cases h : mc.arguments.isEmpty <;>
      simp [process_call, h1, check_no_arguments, h]
  by_cases h2 : mc.name = "create"
  · by_cases h : mc.arguments.isEmpty <;>
      simp [process_call, h1, h2, check_no_arguments, h]
  by_cases h3 : mc.name = "delete"
  · by_cases h : mc.arguments.isEmpty <;>
      simp [process_call, h1, h2, h3, check_no_arguments, h]
  by_cases h4 : mc.name = "drop"
  · by_cases h : mc.arguments.isEmpty <;>
      simp [process_call, h1, h2, h3, h4, check_no_arguments, h]
  by_cases h5 : mc.name = "filter"
  · cases hE : expression_to_filter_expression methods (mc.arguments.head?.getD dummy_argument)
        table_name table <;>
      simp [process_call, h1, h2, h3, h4, h5, try_state, hE]
  by_cases h6 : mc.name = "get"
  · cases hE : get_expression_to_filter_expression methods
        (mc.arguments.head?.getD dummy_argument) table_name table <;>
      simp [process_call, h1, h2, h3, h4, h5, h6, try_state, hE]
  by_cases h7 : mc.name = "insert"
  · cases hE : convert_arguments mc.arguments table_name table argument_to_assignment with
    | ok assigns =>
        by_cases h : (missing_insert_fields (assigns.map Assignment.identifier) table).isEmpty <;>
          simp [process_call, h1, h2, h3, h4, h5, h6, h7, try_state, hE,
            check_insert_arguments, h]
    | err errs =>
        by_cases h :
            (missing_insert_fields (s.assignments.map Assignment.identifier) table).isEmpty <;>
          simp [process_call, h1, h2, h3, h4, h5, h6, h7, try_state, hE,
            check_insert_arguments, h]
  by_cases h8 : mc.name = "join"
  · cases hE : convert_arguments mc.arguments table_name table (argument_to_join tables) <;>
      simp [process_call, h1, h2, h3, h4, h5, h6, h7, h8, try_state, hE]
  by_cases h9 : mc.name = "limit"
  · cases hE : arguments_to_limit (mc.arguments.head?.getD dummy_argument) <;>
      simp [process_call, h1, h2, h3, h4, h5, h6, h7, h8, h9, try_state, hE]
  by_cases h10 : mc.name = "sort"
  · cases hE : convert_arguments mc.arguments table_name table argument_to_order <;>
      simp [process_call, h1, h2, h3, h4, h5, h6, h7, h8, h9, h10, try_state, hE]
  by_cases h11 : mc.name = "update"
  · cases hE : convert_arguments mc.arguments table_name table argument_to_assignment <;>
      simp [process_call, h1, h2, h3, h4, h5, h6, h7, h8, h9, h10, h11, try_state, hE]
  · simp [process_call, h1, h2, h3, h4, h5, h6, h7, h8, h9, h10, h11]

/-- C2 (amended): within one pass, diagnostics accumulate across method
calls — processing a call list never drops previously gathered
diagnostics, each call appends its own (determined by the call and the
non-diagnostic accumulators, never by earlier diagnostics), and every
later call still runs. -/
theorem diagnostics_accumulate_across_calls (tables : SqlTables) (methods : MethodsRegistry)
    (table : SqlFields) (table_name : String) (calls : List MethodCall) (s : AnalyzerState) :
    calls.foldl (process_call tables methods table table_name) s =
      { calls.foldl (process_call tables methods table table_name) { s with errors := [] } with
        errors :=
          s.errors ++
            (calls.foldl (process_call tables methods table table_name)
              { s with errors := [] }).errors } := by
  induction calls generalizing s with
  | nil => simp
  | cons c cs ih =>
    rw [List.foldl_cons, List.foldl_cons,
      process_call_errors_append tables methods table table_name s c, ih]
    conv_rhs => rw [ih]
    simp [List.append_assoc]

/-- Counterexample for C2: in `T.filter((1) && (2))` both operands of the
logical connective are invalid filters — each produces one diagnostic when
reached, as the second conjunct shows on `T.filter((2))` — yet the
analysis of the conjunction reports only the left operand's diagnostic
(one error, at the left literal's position), so the sibling's problem does
not surface together with it. -/
theorem filter_sibling_diagnostics_lost :
    (analyze example_tables []
        ⟨"T",
          [⟨"filter",
            [Expr.binary 9 BinOp.and (Expr.paren 1 (Expr.lit 2 (Lit.int 1 IntLitTy.unsuffixed)))
              (Expr.paren 3 (Expr.lit 4 (Lit.int 2 IntLitTy.unsuffixed)))],
            5⟩],
          6⟩).toErrors = [Error.new ("Expected binary operation") 2] ∧
      (analyze example_tables []
          ⟨"T", [⟨"filter", [Expr.paren 3 (Expr.lit 4 (Lit.int 2 IntLitTy.unsuffixed))], 5⟩],
            6⟩).toErrors = [Error.new ("Expected binary operation") 4] := by
  constructor
  · rfl
  · rfl

/-- Counterexample for C1: `T.insert(id = 1, f1 = "x")` names the primary
key `id` and succeeds, although its assignment-name set {id, f1} does not
equal the table's fields minus the primary key, {f1} — so "succeeds iff
the set equals the fields minus the primary key (no extra field)" fails;
the analyzer never rejects an extra assignment to a known field. -/
theorem insert_primary_key_accepted :
    analyze example_tables []
        ⟨"T",
          [⟨"insert",
            [Expr.assign 1 (Expr.path 2 false ["id"]) (number_literal 1),
             Expr.assign 3 (Expr.path 4 false ["f1"]) (Expr.lit 5 (Lit.str "x"))],
            6⟩],
          7⟩ =
      SqlResult.ok
        (Query.insert [⟨"id", number_literal 1⟩, ⟨"f1", Expr.lit 5 (Lit.str "x")⟩] "T") ∧
      ((["id", "f1"].all (fun f => (fields_minus_primary_key example_table).contains f) &&
        (fields_minus_primary_key example_table).all (fun f => ["id", "f1"].contains f)) =
        false) := by
  constructor
  · rfl
  · rfl

/-- Converting well-formed insert arguments over known fields succeeds
with one assignment per argument, in order. -/
theorem convert_assignments_known (table_name : String) (table : SqlFields)
    (specs : List AssignSpec) (acc : List Assignment × List Error)
    (hknown : ∀ a ∈ specs, contains_field table a.field = true) :
    (specs.map mk_assign_expr).foldl
        (fun acc arg => try_accum (argument_to_assignment arg table_name table) acc) acc =
      (acc.1 ++ specs.map (fun a => (⟨a.field, a.value⟩ : Assignment)), acc.2) := by
  induction specs generalizing acc with
  | nil => simp
  | cons a as ih =>
    have ha : contains_field table a.field = true := hknown a (List.mem_cons_self a as)
    have harg : argument_to_assignment (mk_assign_expr a) table_name table =
        SqlResult.ok (⟨a.field, a.value⟩ : Assignment) := by
      simp [argument_to_assignment, mk_assign_expr, check_field, ha, res]
    rw [List.map_cons, List.foldl_cons]
    rw [ih _ (fun x hx => hknown x (List.mem_cons_of_mem a hx))]
    simp [try_accum, harg]

/-- C1 (amended): for a single `insert` call whose arguments are all
`field = value` with `field` a known field of the table, the analysis
succeeds iff every non-primary-key field is covered by the assignment
names — extra assignments to known fields, the primary key included, are
accepted — and when non-primary-key fields are left unassigned, exactly
one diagnostic (code E0063) is emitted, listing all and only the missing
field names. -/
theorem insert_coverage (sql_tables : SqlTables) (methods : MethodsRegistry)
    (table_name : String) (table : SqlFields) (specs : List AssignSpec) (pos cpos : Nat)
    (htable : lookup_table sql_tables table_name = some table)
    (hknown : ∀ a ∈ specs, contains_field table a.field = true) :
    analyze sql_tables methods
        ⟨table_name, [⟨"insert", specs.map mk_assign_expr, pos⟩], cpos⟩ =
      if (missing_insert_fields (specs.map AssignSpec.field) table).isEmpty then
        SqlResult.ok
          (Query.insert (specs.map (fun a => (⟨a.field, a.value⟩ : Assignment))) table_name)
      else
        SqlResult.err
          [missing_fields_error (missing_insert_fields (specs.map AssignSpec.field) table)
            pos] := by
  have hc : contains_table sql_tables table_name = true := by
    rw [contains_table, htable]; rfl
  have hconv : convert_arguments (specs.map mk_assign_expr) table_name table
      argument_to_assignment =
      SqlResult.ok (specs.map (fun a => (⟨a.field, a.value⟩ : Assignment))) := by
    simp [convert_arguments, convert_assignments_known table_name table specs ([], []) hknown,
      res]
  have hnames : (specs.map (fun a => (⟨a.field, a.value⟩ : Assignment))).map
      Assignment.identifier = specs.map AssignSpec.field := by
    simp [List.map_map, Function.comp]
  by_cases hmiss : (missing_insert_fields (specs.map AssignSpec.field) table).isEmpty <;>
    simp [analyze, hc, htable, check_methods, tql_methods, process_methods, process_call,
      try_state, hconv, check_insert_arguments, hnames, hmiss, initial_state, res, new_query]

/-- Witness for C1 (amended) at a concrete input covering the one
non-primary-key field: the insert succeeds. -/
theorem insert_coverage_witness :
    lookup_table example_tables "T" = some example_table ∧
      (∀ a ∈ [(⟨10, 11, false, "f1", Expr.lit 12 (Lit.str "x")⟩ : AssignSpec)],
        contains_field example_table a.field = true) ∧
      analyze example_tables []
          ⟨"T",
            [⟨"insert",
              [(⟨10, 11, false, "f1", Expr.lit 12 (Lit.str "x")⟩ : AssignSpec)].map
                mk_assign_expr,
              13⟩],
            14⟩ =
        if (missing_insert_fields
            ([(⟨10, 11, false, "f1", Expr.lit 12 (Lit.str "x")⟩ : AssignSpec)].map
              AssignSpec.field)
            example_table).isEmpty then
          SqlResult.ok
            (Query.insert
              ([(⟨10, 11, false, "f1", Expr.lit 12 (Lit.str "x")⟩ : AssignSpec)].map
                (fun a => (⟨a.field, a.value⟩ : Assignment)))
              "T")
        else
          SqlResult.err
            [missing_fields_error
              (missing_insert_fields
                ([(⟨10, 11, false, "f1", Expr.lit 12 (Lit.str "x")⟩ : AssignSpec)].map
                  AssignSpec.field)
                example_table)
              13] :=
  ⟨by decide, by decide,
   insert_coverage example_tables [] "T" example_table
     [⟨10, 11, false, "f1", Expr.lit 12 (Lit.str "x")⟩] 13 14 (by decide) (by decide)⟩

end Tql
